import Mathlib

/-!
Verification of the authentication/session subsystem of the bodo-ts backend.

The development shallowly embeds:
  * the `jsonwebtoken` signing/verification layer (idealized symmetric MAC:
    a signed token records the claims and the secret it was signed with;
    verification succeeds exactly when the same secret is presented and the
    token is unexpired — clock values are whole seconds since epoch),
  * the `argon2` and `bcrypt` hashing libraries (idealized collision-free
    digests carrying the real libraries' version tags, so that format
    handling — the `$2y$`/`$2b$`/`$argon2id$` tags — is modelled exactly),
  * the Redis client as explicit state (an association of keys to
    value/TTL pairs plus an `isOpen` flag), with failure-injection flags so
    that infrastructure failures of `connect`/`get` can be expressed,
  * `JwtTokenService` (src/infrastructure/auth/jwt-token.service.ts),
    `BcryptPasswordService` (src/infrastructure/auth/bcrypt-password.service.ts),
    `SigninUseCase` and `RefreshTokenUseCase` (application layer).

JavaScript exceptions are modelled with `Except JsError`; the services'
`try/catch (error) { if (error instanceof InvalidTokenError) throw error;
throw new InvalidTokenError(msg) }` blocks are the `catchInvalid` combinator.
JavaScript falsiness of the decoded claims (`!payload.sub`, `!payload.jti`)
is `sub = 0` for the numeric subject and `jti = ""` for the string session.
-/

namespace BodoTs

/-! Section: character-level string helpers (anchored tag matching, as the
source's anchored regex replaces behave) -/

/-- Does the second character list start with the first? -/
def tagMatches : List Char → List Char → Bool
  | [], _ => true
  | _ :: _, [] => false
  | c :: cs, d :: ds => c == d && tagMatches cs ds

/-- Test `startsWithTag tag s`: `s` starts with the literal `tag`. -/
def startsWithTag (tag : String) (s : String) : Bool :=
  tagMatches tag.data s.data

/-- Drop the first `n` characters of a string. -/
def dropStr (n : Nat) (s : String) : String :=
  ⟨s.data.drop n⟩

/-! Section: JWT layer (`jsonwebtoken`) -/

/-- The registered claims the service puts into each token: `sub` (numeric
user id), `jti` (session id), and the `iat`/`exp` pair added by
`jwt.sign` (whole seconds since epoch). -/
structure JwtClaims where
  sub : Nat
  jti : String
  iat : Nat
  exp : Nat
deriving DecidableEq, Repr

/-- An idealized signed token: the claims plus the secret the MAC was
computed with.  Signature verification succeeds exactly when the verifier
supplies the same secret (unforgeability idealization). -/
structure SignedToken where
  claims : JwtClaims
  signedWith : String
deriving DecidableEq, Repr

/-- Errors crossing the modelled boundaries: the domain error
`InvalidTokenError`, errors thrown by the `jsonwebtoken` library
(`JsonWebTokenError`/`TokenExpiredError`), and infrastructure errors from
the Redis client (connection refused, command failure). -/
inductive JsError where
  | invalidToken (msg : String)
  | jwtError (msg : String)
  | infra (msg : String)
deriving DecidableEq, Repr

/-- Model of `jwt.sign({sub, jti}, secret, {expiresIn})` at clock `now` (seconds):
sets `iat := now` and `exp := now + expiresInSeconds`. -/
def jwtSign (sub : Nat) (jti : String) (secret : String)
    (expiresInSeconds : Nat) (now : Nat) : SignedToken :=
  { claims := { sub := sub, jti := jti, iat := now, exp := now + expiresInSeconds }
    signedWith := secret }

/-- Model of `jwt.verify(token, secret)` at clock `now`: rejects a wrong-secret
signature with `JsonWebTokenError`, an expired token (`now ≥ exp`) with
`TokenExpiredError`, otherwise returns the decoded payload. -/
def jwtVerify (token : SignedToken) (secret : String) (now : Nat) :
    Except JsError JwtClaims :=
  if token.signedWith ≠ secret then
    .error (.jwtError "invalid signature")
  else if token.claims.exp ≤ now then
    .error (.jwtError "jwt expired")
  else
    .ok token.claims

/-- The compact serialized form of a token (the string the JS code hashes
and compares); injective on the idealized token structure. -/
def encodeToken (t : SignedToken) : String :=
  toString t.claims.sub ++ "." ++ t.claims.jti ++ "." ++
    toString t.claims.iat ++ "." ++ toString t.claims.exp ++ "." ++ t.signedWith

/-! Section: argon2 (used by `JwtTokenService` for the stored refresh-token hash) -/

/-- Idealized `argon2.hash`: an `$argon2id$`-tagged collision-free digest. -/
def argon2hash (s : String) : String :=
  "$argon2id$" ++ s

/-- Idealized `argon2.verify(hash, plain)`. -/
def argon2verify (hash : String) (s : String) : Bool :=
  hash == argon2hash s

/-! Section: bcrypt (used by `BcryptPasswordService`) -/

/-- Constant `BCRYPT_ROUNDS = 12` (bcrypt-password.service.ts). -/
def BCRYPT_ROUNDS : Nat := 12

/-- Idealized node `bcrypt.hash(password, cost)`: node's bcrypt emits a
`$2b$`-tagged hash embedding the cost, then the digest. -/
def bcryptLibHash (password : String) (cost : Nat) : String :=
  "$2b$" ++ toString cost ++ "$" ++ password

/-- Idealized node `bcrypt.compare(password, hash)`: accepts the `$2a$`/`$2b$`
tags node bcrypt understands, parses the cost, and recomputes the digest. -/
def bcryptLibCompare (password : String) (hash : String) : Bool :=
  (startsWithTag "$2a$" hash || startsWithTag "$2b$" hash) &&
    (let body := (dropStr 4 hash).data
     decide (body.takeWhile Char.isDigit ≠ []) &&
       body.dropWhile Char.isDigit == '$' :: password.data)

namespace BcryptPasswordService

/-- Model of `nodeHash.replace(/^\$2[ab]\$/, "$2y$")` — anchored, so only a leading
`$2a$`/`$2b$` tag is rewritten. -/
def toLaravelTag (s : String) : String :=
  if startsWithTag "$2a$" s || startsWithTag "$2b$" s then "$2y$" ++ dropStr 4 s else s

/-- Model of `hash.replace(/^\$2y\$/, "$2b$")` — anchored. -/
def toNodeTag (s : String) : String :=
  if startsWithTag "$2y$" s then "$2b$" ++ dropStr 4 s else s

/-- Implementation of `BcryptPasswordService.hash`: bcrypt-hash at `BCRYPT_ROUNDS`, then
normalize the tag to the Laravel-compatible `$2y$` format. -/
def hash (password : String) : String :=
  toLaravelTag (bcryptLibHash password BCRYPT_ROUNDS)

/-- Implementation of `BcryptPasswordService.verify`: convert a `$2y$` tag to `$2b$`, then
delegate to `bcrypt.compare`. -/
def verify (password : String) (hashString : String) : Bool :=
  bcryptLibCompare password (toNodeTag hashString)

end BcryptPasswordService

/-! Section: Redis client state -/

/-- The Redis client as seen by the service: the key-value store (value and
remaining TTL in seconds), the `isOpen` connection flag, and two
failure-injection flags describing an unhealthy client whose `connect`
resp. `get` rejects with an infrastructure error. -/
structure RedisState where
  store : String → Option (String × Nat)
  isOpen : Bool
  connectFails : Bool
  getFails : Bool

/-- A fresh, healthy, not-yet-connected client over an empty store. -/
def redisInit : RedisState :=
  { store := fun _ => none, isOpen := false, connectFails := false, getFails := false }

/-- Model of `redis.connect()`. -/
def redisConnect (rs : RedisState) : Except JsError RedisState :=
  if rs.connectFails then .error (.infra "redis connect ECONNREFUSED")
  else .ok { rs with isOpen := true }

/-- Model of `redis.get(key)`. -/
def redisGet (rs : RedisState) (key : String) : Except JsError (Option String) :=
  if rs.getFails then .error (.infra "redis get failed")
  else .ok ((rs.store key).map Prod.fst)

/-- Model of `redis.set(key, value, { EX: ttl })` — upsert, resetting the TTL. -/
def redisSet (rs : RedisState) (key : String) (value : String) (ttl : Nat) :
    Except JsError RedisState :=
  .ok { rs with store := fun k => if k = key then some (value, ttl) else rs.store k }

/-- Model of `redis.del(key)` — idempotent delete. -/
def redisDel (rs : RedisState) (key : String) : Except JsError RedisState :=
  .ok { rs with store := fun k => if k = key then none else rs.store k }

/-! Section: Token service (`JwtTokenService`) -/

/-- Constant `ACCESS_TOKEN_EXPIRES_IN = "15m"` — 900 seconds. -/
def ACCESS_TOKEN_EXPIRES_IN_SECONDS : Nat := 15 * 60

/-- Constant `REFRESH_TOKEN_EXPIRES_IN = "7d"` — 604800 seconds. -/
def REFRESH_TOKEN_EXPIRES_IN_SECONDS : Nat := 60 * 60 * 24 * 7

/-- Constant `REDIS_REFRESH_TOKEN_EXPIRES_IN_SECONDS = 60 * 60 * 24 * 7`. -/
def REDIS_REFRESH_TOKEN_TTL_SECONDS : Nat := 60 * 60 * 24 * 7

/-- The Redis key layout: `refresh_token:{userId}:{sessionId}`. -/
def redisKey (userId : Nat) (sessionId : String) : String :=
  "refresh_token" ++ ":" ++ toString userId ++ ":" ++ sessionId

/-- The payload shape returned by the verify operations. -/
structure TokenPayload where
  userId : Nat
  session : String
deriving DecidableEq, Repr

/-- The pair returned by `generateTokenPair`. -/
structure TokenPair where
  accessToken : SignedToken
  refreshToken : SignedToken
deriving DecidableEq, Repr

namespace JwtTokenService

/-- Model of `ensureConnected`: connect the client if it is not already open. -/
def ensureConnected (rs : RedisState) : Except JsError RedisState :=
  if rs.isOpen then .ok rs else redisConnect rs

/-- The `catch (error) { if (error instanceof InvalidTokenError) throw error;
throw new InvalidTokenError(msg) }` block shared by both verify methods:
an `InvalidTokenError` is re-thrown as is; any other error — the JWT
library's, or an infrastructure error — is replaced by a fresh
`InvalidTokenError msg`. -/
def catchInvalid {α : Type} (msg : String) (r : Except JsError α) : Except JsError α :=
  match r with
  | .ok a => .ok a
  | .error (.invalidToken m) => .error (.invalidToken m)
  | .error _ => .error (.invalidToken msg)

/-- Model of `generateTokenPair(userId, session?)`.  The clock `now` and the freshly
generated KSUID string `ksuid` (the value of `KSUID.random()`) are explicit
inputs.  Signs both tokens over `{sub: userId, jti: sessionId}` with the
type-specific lifetimes, then stores the argon2 hash of the refresh token
under `refresh_token:{userId}:{sessionId}` with the 7-day TTL. -/
def generateTokenPair (jwtSecret : String) (rs : RedisState) (now : Nat)
    (ksuid : String) (userId : Nat) (session : Option String) :
    Except JsError (TokenPair × RedisState) := do
  let sessionId := session.getD ksuid
  let accessToken := jwtSign userId sessionId jwtSecret ACCESS_TOKEN_EXPIRES_IN_SECONDS now
  let refreshToken := jwtSign userId sessionId jwtSecret REFRESH_TOKEN_EXPIRES_IN_SECONDS now
  let rs ← ensureConnected rs
  let hashedToken := argon2hash (encodeToken refreshToken)
  let rs ← redisSet rs (redisKey userId sessionId) hashedToken REDIS_REFRESH_TOKEN_TTL_SECONDS
  return ({ accessToken := accessToken, refreshToken := refreshToken }, rs)

/-- The `try` body of `verifyAccessToken`: verify signature and expiry,
reject falsy `sub`/`jti` claims, return the payload. -/
def verifyAccessTokenBody (jwtSecret : String) (now : Nat) (token : SignedToken) :
    Except JsError TokenPayload := do
  let payload ← jwtVerify token jwtSecret now
  if payload.sub == 0 || payload.jti == "" then
    throw (JsError.invalidToken "Invalid token payload")
  return { userId := payload.sub, session := payload.jti }

/-- Model of `verifyAccessToken(token)`: the `try` body under the catch-all that
collapses every non-`InvalidTokenError` into
`InvalidTokenError("Invalid or expired access token")`. -/
def verifyAccessToken (jwtSecret : String) (now : Nat) (token : SignedToken) :
    Except JsError TokenPayload :=
  catchInvalid "Invalid or expired access token" (verifyAccessTokenBody jwtSecret now token)

/-- The `try` body of `verifyRefreshToken`: verify signature and expiry,
reject falsy claims, connect, fetch the stored hash (a missing or falsy
value is "not found"), compare the presented token against it with
argon2, and return the payload together with the (possibly connected)
client state. -/
def verifyRefreshTokenBody (jwtSecret : String) (rs : RedisState) (now : Nat)
    (token : SignedToken) : Except JsError (TokenPayload × RedisState) := do
  let payload ← jwtVerify token jwtSecret now
  if payload.sub == 0 || payload.jti == "" then
    throw (JsError.invalidToken "Invalid token payload")
  let userId := payload.sub
  let sessionId := payload.jti
  let rs ← ensureConnected rs
  let hashedToken? ← redisGet rs (redisKey userId sessionId)
  let hashedToken := hashedToken?.getD ""
  if hashedToken == "" then
    throw (JsError.invalidToken "Refresh token not found in storage")
  let isValid := argon2verify hashedToken (encodeToken token)
  if !isValid then
    throw (JsError.invalidToken "Refresh token verification failed")
  return ({ userId := userId, session := sessionId }, rs)

/-- Model of `verifyRefreshToken(token)`: the `try` body under the catch-all that
collapses every non-`InvalidTokenError` into
`InvalidTokenError("Invalid or expired refresh token")`. -/
def verifyRefreshToken (jwtSecret : String) (rs : RedisState) (now : Nat)
    (token : SignedToken) : Except JsError (TokenPayload × RedisState) :=
  catchInvalid "Invalid or expired refresh token" (verifyRefreshTokenBody jwtSecret rs now token)

/-- Model of `invalidateRefreshToken(userId, session)`: connect if needed and delete
the session's store entry. -/
def invalidateRefreshToken (rs : RedisState) (userId : Nat) (session : String) :
    Except JsError RedisState := do
  let rs ← ensureConnected rs
  redisDel rs (redisKey userId session)

end JwtTokenService

/-! Section: Application layer: result type, domain errors, use cases -/

/-- The domain errors of the auth subsystem (auth.errors.ts).
`InvalidCredentialsError` carries the fixed message
"Invalid email or password" and code `INVALID_CREDENTIALS`, so every
occurrence is one and the same value. -/
inductive DomainError where
  | invalidCredentials
  | userAlreadyExists (email : String)
  | invalidTokenDomain (msg : String)
  | validation (messages : List String)
deriving DecidableEq, Repr

/-- The tagged result returned by use cases (application/shared/result.ts). -/
structure UcResult (α : Type) where
  success : Bool
  data : Option α
  error : Option DomainError
deriving DecidableEq, Repr

/-- Helper `success(data)` from result.ts. -/
def ucSuccess {α : Type} (a : α) : UcResult α :=
  { success := true, data := some a, error := none }

/-- Helper `failure(error)` from result.ts. -/
def ucFailure {α : Type} (e : DomainError) : UcResult α :=
  { success := false, data := none, error := some e }

/-- The `AuthTokensDTO` shape the auth use cases return. -/
structure AuthTokensDTO where
  access_token : SignedToken
  refresh_token : SignedToken
deriving DecidableEq, Repr

/-- The slice of the user entity the signin use case reads: the optional
persisted id and the stored password hash. -/
structure UserRec where
  id : Option Nat
  password : String
deriving DecidableEq, Repr

/-- Signin request body. -/
structure SigninInput where
  email : String
  password : String
deriving DecidableEq, Repr

namespace SigninUseCase

/-- Model of `SigninUseCase.execute`: look the user up by email (the repository is a
collaborator, passed as a function), verify the password with
`BcryptPasswordService`, and on success mint a fresh-session token pair;
each failure cause returns `failure(new InvalidCredentialsError())`. -/
def execute (findByEmail : String → Option UserRec) (jwtSecret : String)
    (rs : RedisState) (now : Nat) (ksuid : String) (input : SigninInput) :
    Except JsError (UcResult AuthTokensDTO × RedisState) := do
  match findByEmail input.email with
  | none => return (ucFailure .invalidCredentials, rs)
  | some user =>
    if !(BcryptPasswordService.verify input.password user.password) then
      return (ucFailure .invalidCredentials, rs)
    else
      match user.id with
      | none => return (ucFailure .invalidCredentials, rs)
      | some userId => do
        let (pair, rs) ← JwtTokenService.generateTokenPair jwtSecret rs now ksuid userId none
        return (ucSuccess { access_token := pair.accessToken
                            refresh_token := pair.refreshToken }, rs)

end SigninUseCase

namespace RefreshTokenUseCase

/-- Model of `RefreshTokenUseCase.execute`: verify the refresh token, then generate a
new pair for the verified `userId` with the verified payload's `session`;
an `InvalidTokenError` is returned as a failure result, any other error is
re-thrown.  (On the failure path the JS client object may have been
connected in place; the returned state on that path is the input state,
which no claim observes.) -/
def execute (jwtSecret : String) (rs : RedisState) (now : Nat) (ksuid : String)
    (refreshToken : SignedToken) :
    Except JsError (UcResult AuthTokensDTO × RedisState) :=
  match (do
      let (payload, rs1) ← JwtTokenService.verifyRefreshToken jwtSecret rs now refreshToken
      let (pair, rs2) ← JwtTokenService.generateTokenPair jwtSecret rs1 now ksuid
        payload.userId (some payload.session)
      return (pair, rs2) : Except JsError (TokenPair × RedisState)) with
  | .ok (pair, rs2) =>
      .ok (ucSuccess { access_token := pair.accessToken
                       refresh_token := pair.refreshToken }, rs2)
  | .error (.invalidToken m) => .ok (ucFailure (.invalidTokenDomain m), rs)
  | .error e => .error e

end RefreshTokenUseCase

/-! Section: Observation helpers for stating the claims -/

/-- Did the computation fail with `InvalidTokenError` (of any message)? -/
def failsInvalidToken {α : Type} (r : Except JsError α) : Bool :=
  match r with
  | .error (.invalidToken _) => true
  | _ => false

/-- The message of an `InvalidTokenError` outcome, if that is the outcome. -/
def invalidTokenMsg {α : Type} (r : Except JsError α) : Option String :=
  match r with
  | .error (.invalidToken m) => some m
  | _ => none

/-- Did the computation fail with an infrastructure error? -/
def failsInfra {α : Type} (r : Except JsError α) : Bool :=
  match r with
  | .error (.infra _) => true
  | _ => false

/-- The token pair issued by a `generateTokenPair` call, if it succeeded. -/
def genPair? (jwtSecret : String) (rs : RedisState) (now : Nat) (ksuid : String)
    (userId : Nat) (session : Option String) : Option TokenPair :=
  match JwtTokenService.generateTokenPair jwtSecret rs now ksuid userId session with
  | .ok (pair, _) => some pair
  | .error _ => none

/-- The store entry at the session's key after a `generateTokenPair` call
(`none` when the call failed or nothing is stored there). -/
def storedAfterGen? (jwtSecret : String) (rs : RedisState) (now : Nat) (ksuid : String)
    (userId : Nat) (session : Option String) : Option (String × Nat) :=
  match JwtTokenService.generateTokenPair jwtSecret rs now ksuid userId session with
  | .ok (_, rs') => rs'.store (redisKey userId (session.getD ksuid))
  | .error _ => none

/-- The payload of a successful refresh-token verification. -/
def refreshPayload? {α : Type} (r : Except JsError (TokenPayload × α)) : Option TokenPayload :=
  match r with
  | .ok (p, _) => some p
  | .error _ => none

/-- The payload of a successful access-token verification. -/
def accessPayload? (r : Except JsError TokenPayload) : Option TokenPayload :=
  match r with
  | .ok p => some p
  | .error _ => none

/-- Round trip of C5: issue a pair at time `now`, then verify the returned
refresh token at time `t'` against the resulting store state. -/
def roundTrip (jwtSecret : String) (rs : RedisState) (now : Nat) (ksuid : String)
    (userId : Nat) (t' : Nat) : Except JsError TokenPayload := do
  let (pair, rs') ← JwtTokenService.generateTokenPair jwtSecret rs now ksuid userId none
  let (payload, _) ← JwtTokenService.verifyRefreshToken jwtSecret rs' t' pair.refreshToken
  return payload

/-- Revocation scenario of C4: issue a pair, invalidate the session, then
verify the previously issued refresh token at time `t'`. -/
def revokeThenVerify (jwtSecret : String) (rs : RedisState) (now : Nat) (ksuid : String)
    (userId : Nat) (session : Option String) (t' : Nat) :
    Except JsError (TokenPayload × RedisState) := do
  let (pair, rs1) ← JwtTokenService.generateTokenPair jwtSecret rs now ksuid userId session
  let rs2 ← JwtTokenService.invalidateRefreshToken rs1 userId (session.getD ksuid)
  JwtTokenService.verifyRefreshToken jwtSecret rs2 t' pair.refreshToken

/-- The session (`jti`) claims of the two tokens returned by a successful
`RefreshTokenUseCase.execute`, when it returned a success result. -/
def refreshResultJtis (jwtSecret : String) (rs : RedisState) (now : Nat) (ksuid : String)
    (refreshToken : SignedToken) : Option (String × String) :=
  match RefreshTokenUseCase.execute jwtSecret rs now ksuid refreshToken with
  | .ok (res, _) =>
    match res.data with
    | some dto => some (dto.access_token.claims.jti, dto.refresh_token.claims.jti)
    | none => none
  | .error _ => none

/-- Result of `verifyAccessToken` applied to the refresh token of a freshly issued
pair (C9's cross-verification scenario), when issuance succeeded. -/
def accessVerifyOfRefresh? (jwtSecret : String) (rs : RedisState) (now : Nat)
    (ksuid : String) (userId : Nat) (session : Option String) (t' : Nat) :
    Option (Except JsError TokenPayload) :=
  (genPair? jwtSecret rs now ksuid userId session).map fun pair =>
    JwtTokenService.verifyAccessToken jwtSecret t' pair.refreshToken

/-! Section: Sample values used by concrete counterexamples and witnesses -/

/-- A refresh token for user 7, session "K", signed with secret "s" at time 0. -/
def sampleRefreshTok : SignedToken :=
  jwtSign 7 "K" "s" REFRESH_TOKEN_EXPIRES_IN_SECONDS 0

/-- A connected Redis client whose `get` command rejects with an
infrastructure error. -/
def redisGetFailing : RedisState :=
  { redisInit with getFails := true, isOpen := true }

/-- A connected client holding exactly the session record that
`generateTokenPair(7)` (secret "s", session "K", time 0) writes. -/
def sampleStoredRedis : RedisState :=
  { store := fun k => if k = redisKey 7 "K" then
      some (argon2hash (encodeToken sampleRefreshTok), REDIS_REFRESH_TOKEN_TTL_SECONDS)
    else none,
    isOpen := true, connectFails := false, getFails := false }

/-! Section: Helper lemmas -/

theorem strData_append (a b : String) : (a ++ b).data = a.data ++ b.data := rfl

theorem tagMatches_append (l rest : List Char) : tagMatches l (l ++ rest) = true := by
  induction l with
  | nil => rfl
  | cons c cs ih => simp [tagMatches, ih]

theorem argon2hash_ne_empty (s : String) : ¬ argon2hash s = "" := by
  intro h
  have hd : (argon2hash s).data = "".data := by rw [h]
  simp [argon2hash, strData_append] at hd

theorem argon2verify_self (s : String) : argon2verify (argon2hash s) s = true := by
  simp [argon2verify]

/-- Success shape of `generateTokenPair`: when the client is connected or can
connect, the call succeeds, returns the two tokens signed over the resolved
session id with the type-specific lifetimes, and upserts the argon2 hash of
the refresh token under the session's key with the 7-day TTL. -/
theorem generateTokenPair_eq (jwtSecret : String) (rs : RedisState) (now : Nat)
    (ksuid : String) (userId : Nat) (session : Option String)
    (hconn : rs.isOpen = true ∨ rs.connectFails = false) :
    JwtTokenService.generateTokenPair jwtSecret rs now ksuid userId session =
      .ok ({ accessToken := jwtSign userId (session.getD ksuid) jwtSecret ACCESS_TOKEN_EXPIRES_IN_SECONDS now,
             refreshToken := jwtSign userId (session.getD ksuid) jwtSecret REFRESH_TOKEN_EXPIRES_IN_SECONDS now },
           { store := fun k => if k = redisKey userId (session.getD ksuid) then
               some (argon2hash (encodeToken (jwtSign userId (session.getD ksuid) jwtSecret REFRESH_TOKEN_EXPIRES_IN_SECONDS now)), REDIS_REFRESH_TOKEN_TTL_SECONDS)
             else rs.store k,
             isOpen := true, connectFails := rs.connectFails, getFails := rs.getFails }) := by
  cases hOpen : rs.isOpen with
  | true =>
    simp [JwtTokenService.generateTokenPair, JwtTokenService.ensureConnected, redisConnect,
      redisSet, hOpen, Bind.bind, Except.bind, Pure.pure, Except.pure]
  | false =>
    rcases hconn with h | h
    · rw [hOpen] at h; cases h
    · simp [JwtTokenService.generateTokenPair, JwtTokenService.ensureConnected, redisConnect,
        redisSet, hOpen, h, Bind.bind, Except.bind, Pure.pure, Except.pure]

/-- Inversion of a successful `generateTokenPair`: the issued pair is signed
over the resolved session with the fixed lifetimes and the store holds the
refresh token's argon2 hash. -/
theorem generateTokenPair_ok_inv (jwtSecret : String) (rs : RedisState) (now : Nat)
    (ksuid : String) (userId : Nat) (session : Option String)
    (pair : TokenPair) (rs' : RedisState)
    (h : JwtTokenService.generateTokenPair jwtSecret rs now ksuid userId session = .ok (pair, rs')) :
    pair = { accessToken := jwtSign userId (session.getD ksuid) jwtSecret ACCESS_TOKEN_EXPIRES_IN_SECONDS now,
             refreshToken := jwtSign userId (session.getD ksuid) jwtSecret REFRESH_TOKEN_EXPIRES_IN_SECONDS now } ∧
    rs'.store (redisKey userId (session.getD ksuid)) =
      some (argon2hash (encodeToken pair.refreshToken), REDIS_REFRESH_TOKEN_TTL_SECONDS) := by
  have hconn : rs.isOpen = true ∨ rs.connectFails = false := by
    by_contra hcon
    push_neg at hcon
    obtain ⟨h1, h2⟩ := hcon
    have h1' : rs.isOpen = false := Bool.eq_false_iff.mpr h1
    have h2' : rs.connectFails = true := eq_true_of_ne_false h2
    unfold JwtTokenService.generateTokenPair JwtTokenService.ensureConnected redisConnect at h
    simp [h1', h2', Bind.bind, Except.bind] at h
  rw [generateTokenPair_eq jwtSecret rs now ksuid userId session hconn] at h
  obtain ⟨hp, hs⟩ := (Prod.mk.injEq _ _ _ _).mp (Except.ok.inj h)
  subst hp
  subst hs
  simp

theorem catchInvalid_error {α : Type} (msg : String) (r : Except JsError α) (e : JsError)
    (h : JwtTokenService.catchInvalid msg r = .error e) : ∃ m, e = .invalidToken m := by
  unfold JwtTokenService.catchInvalid at h
  match r, h with
  | .ok a, h => cases h
  | .error (.invalidToken m), h => cases h; exact ⟨m, rfl⟩
  | .error (.jwtError m), h => cases h; exact ⟨msg, rfl⟩
  | .error (.infra m), h => cases h; exact ⟨msg, rfl⟩

/-- Any correctly-signed, unexpired refresh token whose store entry is absent
is rejected with `InvalidTokenError` (of some message). -/
theorem verifyRefreshToken_absent (jwtSecret : String) (rs : RedisState) (now : Nat)
    (token : SignedToken)
    (habs : rs.store (redisKey token.claims.sub token.claims.jti) = none) :
    failsInvalidToken (JwtTokenService.verifyRefreshToken jwtSecret rs now token) = true := by
  unfold JwtTokenService.verifyRefreshToken JwtTokenService.verifyRefreshTokenBody
    JwtTokenService.catchInvalid jwtVerify JwtTokenService.ensureConnected redisConnect redisGet
  simp only [Bind.bind, Except.bind, Pure.pure, Except.pure, failsInvalidToken]
  split_ifs <;>
    first
      | rfl
      | (by_cases hc : token.claims.sub = 0 ∨ token.claims.jti = "" <;>
          cases hgf : rs.getFails <;>
          simp_all [failsInvalidToken, Option.getD])

theorem jwtVerify_ok_inv (token : SignedToken) (secret : String) (now : Nat) (c : JwtClaims)
    (h : jwtVerify token secret now = .ok c) :
    c = token.claims ∧ token.signedWith = secret ∧ now < token.claims.exp := by
  unfold jwtVerify at h
  split_ifs at h with h1 h2
  all_goals try cases h
  refine ⟨rfl, ?_, ?_⟩
  · exact not_ne_iff.mp h1
  · exact Nat.not_le.mp h2

theorem catchInvalid_ok {α : Type} (msg : String) (r : Except JsError α) (a : α)
    (h : JwtTokenService.catchInvalid msg r = .ok a) : r = .ok a := by
  unfold JwtTokenService.catchInvalid at h
  match r, h with
  | .ok b, h => exact h
  | .error (.invalidToken m), h => cases h
  | .error (.jwtError m), h => cases h
  | .error (.infra m), h => cases h

theorem bind_ok_inv {ε α β : Type} (r : Except ε α) (f : α → Except ε β) (b : β)
    (h : r >>= f = .ok b) : ∃ a, r = .ok a ∧ f a = .ok b := by
  cases r with
  | ok a => exact ⟨a, rfl, h⟩
  | error e => simp [Bind.bind, Except.bind] at h

/-- A successful `verifyRefreshToken` returns the token's own claims. -/
theorem verifyRefreshToken_ok_payload (jwtSecret : String) (rs : RedisState) (now : Nat)
    (token : SignedToken) (p : TokenPayload) (rs' : RedisState)
    (h : JwtTokenService.verifyRefreshToken jwtSecret rs now token = .ok (p, rs')) :
    p = { userId := token.claims.sub, session := token.claims.jti } := by
  unfold JwtTokenService.verifyRefreshToken at h
  have hb := catchInvalid_ok _ _ _ h
  unfold JwtTokenService.verifyRefreshTokenBody at hb
  obtain ⟨payload, hjv, hb⟩ := bind_ok_inv _ _ _ hb
  obtain ⟨hc, hsig, hexp⟩ := jwtVerify_ok_inv _ _ _ _ hjv
  subst hc
  simp only at hb
  by_cases hchk : (token.claims.sub == 0 || token.claims.jti == "") = true
  · simp [hchk, Bind.bind, Except.bind, throw, throwThe, MonadExceptOf.throw] at hb
  · simp only [hchk] at hb
    obtain ⟨u, hu, hb⟩ := bind_ok_inv _ _ _ hb
    obtain ⟨rs1, hens, hb⟩ := bind_ok_inv _ _ _ hb
    obtain ⟨hv, hget, hb⟩ := bind_ok_inv _ _ _ hb
    by_cases hemp : (hv.getD "" == "") = true
    · simp [hemp, Bind.bind, Except.bind, throw, throwThe, MonadExceptOf.throw] at hb
    · simp only [hemp] at hb
      obtain ⟨u2, hu2, hb⟩ := bind_ok_inv _ _ _ hb
      by_cases hav : (!argon2verify (hv.getD "") (encodeToken token)) = true
      · simp [hav, Bind.bind, Except.bind, throw, throwThe, MonadExceptOf.throw] at hb
      · simp only [hav] at hb
        obtain ⟨u3, hu3, hb⟩ := bind_ok_inv _ _ _ hb
        simp [pure, Except.pure] at hb
        exact hb.1.symm


/-- Positive case of `verifyRefreshToken`: a correctly-signed, unexpired
token with non-falsy claims, a connectable healthy client, and the matching
argon2 hash stored under the session key verifies successfully, returning
the token's own claims. -/
theorem verifyRefreshToken_ok (jwtSecret : String) (rs : RedisState) (now : Nat)
    (token : SignedToken)
    (hsig : token.signedWith = jwtSecret) (hexp : now < token.claims.exp)
    (hsub : token.claims.sub ≠ 0) (hjti : token.claims.jti ≠ "")
    (hconn : rs.isOpen = true ∨ rs.connectFails = false) (hget : rs.getFails = false)
    (hstore : (rs.store (redisKey token.claims.sub token.claims.jti)).map Prod.fst =
      some (argon2hash (encodeToken token))) :
    refreshPayload? (JwtTokenService.verifyRefreshToken jwtSecret rs now token) =
      some { userId := token.claims.sub, session := token.claims.jti } := by
  unfold JwtTokenService.verifyRefreshToken JwtTokenService.verifyRefreshTokenBody
    JwtTokenService.catchInvalid jwtVerify JwtTokenService.ensureConnected redisConnect redisGet
  simp only [Bind.bind, Except.bind, Pure.pure, Except.pure]
  cases hOpen : rs.isOpen with
  | true =>
    simp [hsig, Nat.not_le.mpr hexp, hsub, hjti, hOpen, hget, hstore, Option.getD,
      argon2hash_ne_empty, argon2verify_self, refreshPayload?]
  | false =>
    rcases hconn with h | h
    · rw [hOpen] at h; cases h
    · simp [hsig, Nat.not_le.mpr hexp, hsub, hjti, hOpen, h, hget, hstore, Option.getD,
        argon2hash_ne_empty, argon2verify_self, refreshPayload?]


/-- Existential form of the positive case: the verified payload is the
token's own claims, for some resulting client state. -/
theorem verifyRefreshToken_ok_exists (jwtSecret : String) (rs : RedisState) (now : Nat)
    (token : SignedToken)
    (hsig : token.signedWith = jwtSecret) (hexp : now < token.claims.exp)
    (hsub : token.claims.sub ≠ 0) (hjti : token.claims.jti ≠ "")
    (hconn : rs.isOpen = true ∨ rs.connectFails = false) (hget : rs.getFails = false)
    (hstore : (rs.store (redisKey token.claims.sub token.claims.jti)).map Prod.fst =
      some (argon2hash (encodeToken token))) :
    ∃ rs2, JwtTokenService.verifyRefreshToken jwtSecret rs now token =
      .ok ({ userId := token.claims.sub, session := token.claims.jti }, rs2) := by
  unfold JwtTokenService.verifyRefreshToken JwtTokenService.verifyRefreshTokenBody
    JwtTokenService.catchInvalid jwtVerify JwtTokenService.ensureConnected redisConnect redisGet
  simp only [Bind.bind, Except.bind, Pure.pure, Except.pure]
  cases hOpen : rs.isOpen with
  | true =>
    refine ⟨rs, ?_⟩
    simp [hsig, Nat.not_le.mpr hexp, hsub, hjti, hOpen, hget, hstore, Option.getD,
      argon2hash_ne_empty, argon2verify_self]
  | false =>
    rcases hconn with h | h
    · rw [hOpen] at h; cases h
    · refine ⟨{ rs with isOpen := true }, ?_⟩
      simp [hsig, Nat.not_le.mpr hexp, hsub, hjti, hOpen, h, hget, hstore, Option.getD,
        argon2hash_ne_empty, argon2verify_self]


/-! Section: Claim C3 -/

/-- C3: for every token pair issued by `generateTokenPair`, the access
token satisfies `exp - iat = 900` and the refresh token `exp - iat = 604800`. -/
theorem C3_lifetime_exactness (jwtSecret : String) (rs : RedisState) (now : Nat)
    (ksuid : String) (userId : Nat) (session : Option String) (pair : TokenPair)
    (h : genPair? jwtSecret rs now ksuid userId session = some pair) :
    pair.accessToken.claims.exp - pair.accessToken.claims.iat = 900 ∧
    pair.refreshToken.claims.exp - pair.refreshToken.claims.iat = 604800 := by
  unfold genPair? at h
  cases hg : JwtTokenService.generateTokenPair jwtSecret rs now ksuid userId session with
  | error e => rw [hg] at h; cases h
  | ok pr =>
    rw [hg] at h
    obtain ⟨pair', rs'⟩ := pr
    have hpp : pair' = pair := Option.some.inj h
    subst hpp
    obtain ⟨hp, -⟩ := generateTokenPair_ok_inv _ _ _ _ _ _ _ _ hg
    subst hp
    simp [jwtSign, ACCESS_TOKEN_EXPIRES_IN_SECONDS, REFRESH_TOKEN_EXPIRES_IN_SECONDS]

theorem C3_witness :
    ({ accessToken := jwtSign 7 "K" "s" ACCESS_TOKEN_EXPIRES_IN_SECONDS 0,
       refreshToken := jwtSign 7 "K" "s" REFRESH_TOKEN_EXPIRES_IN_SECONDS 0 } :
      TokenPair).accessToken.claims.exp -
      ({ accessToken := jwtSign 7 "K" "s" ACCESS_TOKEN_EXPIRES_IN_SECONDS 0,
         refreshToken := jwtSign 7 "K" "s" REFRESH_TOKEN_EXPIRES_IN_SECONDS 0 } :
        TokenPair).accessToken.claims.iat = 900 ∧
    ({ accessToken := jwtSign 7 "K" "s" ACCESS_TOKEN_EXPIRES_IN_SECONDS 0,
       refreshToken := jwtSign 7 "K" "s" REFRESH_TOKEN_EXPIRES_IN_SECONDS 0 } :
      TokenPair).refreshToken.claims.exp -
      ({ accessToken := jwtSign 7 "K" "s" ACCESS_TOKEN_EXPIRES_IN_SECONDS 0,
         refreshToken := jwtSign 7 "K" "s" REFRESH_TOKEN_EXPIRES_IN_SECONDS 0 } :
        TokenPair).refreshToken.claims.iat = 604800 :=
  C3_lifetime_exactness "s" redisInit 0 "K" 7 none _ (by decide)


/-! Section: Claim C1 -/

/-- C1 as stated is false at a concrete input: for
`generateTokenPair(7)` (secret "s", KSUID "K", time 0) the issued refresh
token is the one below, and the value stored in the Session Store under its
key is NOT the Password Hashing Adapter's (bcrypt-based) hash of the
refresh token value. -/
theorem C1_counterexample :
    (genPair? "s" redisInit 0 "K" 7 none).map (fun p => encodeToken p.refreshToken) =
      some (encodeToken (jwtSign 7 "K" "s" REFRESH_TOKEN_EXPIRES_IN_SECONDS 0)) ∧
    (storedAfterGen? "s" redisInit 0 "K" 7 none).map Prod.fst ≠
      some (BcryptPasswordService.hash
        (encodeToken (jwtSign 7 "K" "s" REFRESH_TOKEN_EXPIRES_IN_SECONDS 0))) :=
  ⟨by decide, by decide⟩

/-- C1 amended: the secret stored under the session's key is the hash of the
refresh token value itself (not a derived secret), computed with argon2
(the `argon2` library), not with the Password Hashing Adapter's bcrypt
primitive; it is stored with the 7-day TTL. -/
theorem C1_stored_secret (jwtSecret : String) (rs : RedisState) (now : Nat)
    (ksuid : String) (userId : Nat) (session : Option String) (pair : TokenPair)
    (h : genPair? jwtSecret rs now ksuid userId session = some pair) :
    storedAfterGen? jwtSecret rs now ksuid userId session =
      some (argon2hash (encodeToken pair.refreshToken), REDIS_REFRESH_TOKEN_TTL_SECONDS) := by
  unfold genPair? at h
  unfold storedAfterGen?
  cases hg : JwtTokenService.generateTokenPair jwtSecret rs now ksuid userId session with
  | error e => rw [hg] at h; cases h
  | ok pr =>
    rw [hg] at h
    obtain ⟨pair', rs'⟩ := pr
    have hpp : pair' = pair := Option.some.inj h
    subst hpp
    obtain ⟨-, hs⟩ := generateTokenPair_ok_inv _ _ _ _ _ _ _ _ hg
    exact hs

theorem C1_witness :
    storedAfterGen? "s" redisInit 0 "K" 7 none =
      some (argon2hash (encodeToken
        ({ accessToken := jwtSign 7 "K" "s" ACCESS_TOKEN_EXPIRES_IN_SECONDS 0,
           refreshToken := jwtSign 7 "K" "s" REFRESH_TOKEN_EXPIRES_IN_SECONDS 0 } :
          TokenPair).refreshToken), REDIS_REFRESH_TOKEN_TTL_SECONDS) :=
  C1_stored_secret "s" redisInit 0 "K" 7 none _ (by decide)

/-! Section: Claim C4 -/

/-- C4: a correctly-signed, unexpired refresh token whose store entry is
absent fails with `InvalidToken`; and after issuing a pair and then calling
`invalidateRefreshToken(userId, sessionId)`, verifying the previously
issued refresh token fails with `InvalidToken`. -/
theorem C4_absent_and_revoked (jwtSecret : String) (rs rsAbs : RedisState)
    (now t1 t2 : Nat) (ksuid : String) (userId : Nat) (session : Option String)
    (token : SignedToken)
    (hsig : token.signedWith = jwtSecret) (hexp : t1 < token.claims.exp)
    (habs : rsAbs.store (redisKey token.claims.sub token.claims.jti) = none)
    (hconn : rs.isOpen = true ∨ rs.connectFails = false) :
    failsInvalidToken (JwtTokenService.verifyRefreshToken jwtSecret rsAbs t1 token) = true ∧
    failsInvalidToken (revokeThenVerify jwtSecret rs now ksuid userId session t2) = true := by
  constructor
  · exact verifyRefreshToken_absent jwtSecret rsAbs t1 token habs
  · unfold revokeThenVerify
    rw [generateTokenPair_eq jwtSecret rs now ksuid userId session hconn]
    simp only [Bind.bind, Except.bind, Pure.pure, Except.pure,
      JwtTokenService.invalidateRefreshToken, JwtTokenService.ensureConnected, redisDel]
    exact verifyRefreshToken_absent _ _ _ _ (by simp [jwtSign])

theorem C4_witness :
    failsInvalidToken (JwtTokenService.verifyRefreshToken "s" redisInit 5 sampleRefreshTok) = true ∧
    failsInvalidToken (revokeThenVerify "s" redisInit 0 "K" 7 none 5) = true :=
  C4_absent_and_revoked "s" redisInit redisInit 0 5 5 "K" 7 none sampleRefreshTok
    (by decide) (by decide) (by decide) (by decide)

/-! Section: Claim C5 -/

/-- C5 as stated is false at `userId = 0`: the round trip
`verifyRefreshToken(generateTokenPair(0).refreshToken)` does not succeed —
it fails with `InvalidToken` (the falsy-claim check rejects `sub = 0`). -/
theorem C5_counterexample :
    failsInvalidToken (roundTrip "s" redisInit 0 "K" 0 10) = true ∧
    accessPayload? (roundTrip "s" redisInit 0 "K" 0 10) = none :=
  ⟨by decide, by decide⟩

/-- C5 amended: for every `userId ≠ 0` (and a nonempty generated session
id), `verifyRefreshToken (generateTokenPair userId).refreshToken` against
the resulting store state, before expiry and with no intervening
invalidation, succeeds and returns the same `userId`. -/
theorem C5_round_trip (jwtSecret : String) (rs : RedisState) (now t' : Nat)
    (ksuid : String) (userId : Nat)
    (huid : userId ≠ 0) (hks : ksuid ≠ "")
    (hconn : rs.isOpen = true ∨ rs.connectFails = false) (hget : rs.getFails = false)
    (hexp : t' < now + REFRESH_TOKEN_EXPIRES_IN_SECONDS) :
    accessPayload? (roundTrip jwtSecret rs now ksuid userId t') =
      some { userId := userId, session := ksuid } := by
  unfold roundTrip
  rw [generateTokenPair_eq jwtSecret rs now ksuid userId none hconn]
  simp only [Bind.bind, Except.bind, Pure.pure, Except.pure]
  obtain ⟨rs2, hok⟩ := verifyRefreshToken_ok_exists jwtSecret
    { store := fun k => if k = redisKey userId (Option.getD none ksuid) then
        some (argon2hash (encodeToken (jwtSign userId (Option.getD none ksuid) jwtSecret REFRESH_TOKEN_EXPIRES_IN_SECONDS now)), REDIS_REFRESH_TOKEN_TTL_SECONDS)
      else rs.store k,
      isOpen := true, connectFails := rs.connectFails, getFails := rs.getFails }
    t' (jwtSign userId (Option.getD none ksuid) jwtSecret REFRESH_TOKEN_EXPIRES_IN_SECONDS now)
    (by simp [jwtSign]) (by simpa [jwtSign] using hexp) (by simpa [jwtSign] using huid)
    (by simpa [jwtSign] using hks) (Or.inl rfl) hget (by simp [jwtSign])
  rw [hok]
  simp [jwtSign, accessPayload?]

theorem C5_witness :
    accessPayload? (roundTrip "s" redisInit 0 "K" 7 10) =
      some { userId := 7, session := "K" } :=
  C5_round_trip "s" redisInit 0 10 "K" 7 (by decide) (by decide) (by decide)
    (by decide) (by decide)


/-! Section: Claim C2 -/

/-- C2 as stated is false at a concrete input: with a connected client whose
`get` rejects with an infrastructure error, `verifyRefreshToken` of a
correctly-signed, unexpired token returns `InvalidTokenError`
("Invalid or expired refresh token"), not the infrastructure error. -/
theorem C2_counterexample :
    invalidTokenMsg (JwtTokenService.verifyRefreshToken "s" redisGetFailing 5 sampleRefreshTok) =
      some "Invalid or expired refresh token" ∧
    failsInfra (JwtTokenService.verifyRefreshToken "s" redisGetFailing 5 sampleRefreshTok) = false :=
  ⟨by decide, by decide⟩

/-- C2 amended: in `verifyRefreshToken` the catch-all converts a Session
Store infrastructure failure into the generic `InvalidToken` error; an
infrastructure error propagates unmodified from `generateTokenPair`
(which has no such catch). -/
theorem C2_infra_error_converted (jwtSecret : String) (rs rsC : RedisState) (now : Nat)
    (ksuid : String) (userId : Nat) (session : Option String) (token : SignedToken)
    (hsig : token.signedWith = jwtSecret) (hexp : now < token.claims.exp)
    (hsub : token.claims.sub ≠ 0) (hjti : token.claims.jti ≠ "")
    (hconn : rs.isOpen = true ∨ rs.connectFails = false) (hgetf : rs.getFails = true)
    (hopC : rsC.isOpen = false) (hcfC : rsC.connectFails = true) :
    JwtTokenService.verifyRefreshToken jwtSecret rs now token =
      .error (.invalidToken "Invalid or expired refresh token") ∧
    JwtTokenService.generateTokenPair jwtSecret rsC now ksuid userId session =
      .error (.infra "redis connect ECONNREFUSED") := by
  constructor
  · unfold JwtTokenService.verifyRefreshToken JwtTokenService.verifyRefreshTokenBody
      JwtTokenService.catchInvalid jwtVerify JwtTokenService.ensureConnected redisConnect redisGet
    simp only [Bind.bind, Except.bind, Pure.pure, Except.pure]
    cases hOpen : rs.isOpen with
    | true => simp [hsig, Nat.not_le.mpr hexp, hsub, hjti, hOpen, hgetf]
    | false =>
      rcases hconn with h | h
      · rw [hOpen] at h; cases h
      · simp [hsig, Nat.not_le.mpr hexp, hsub, hjti, hOpen, h, hgetf]
  · unfold JwtTokenService.generateTokenPair JwtTokenService.ensureConnected redisConnect
    simp [hopC, hcfC, Bind.bind, Except.bind]

theorem C2_witness :
    JwtTokenService.verifyRefreshToken "s" redisGetFailing 0 sampleRefreshTok =
      .error (.invalidToken "Invalid or expired refresh token") ∧
    JwtTokenService.generateTokenPair "s" { redisInit with connectFails := true } 0 "K" 7 none =
      .error (.infra "redis connect ECONNREFUSED") :=
  C2_infra_error_converted "s" redisGetFailing { redisInit with connectFails := true }
    0 "K" 7 none sampleRefreshTok (by decide) (by decide) (by decide) (by decide)
    (by decide) (by decide) (by decide) (by decide)

/-! Section: Claim C8 -/

/-- C8: the signin use case returns the same `InvalidCredentials` failure —
the identical result value — whether the user lookup finds no user or the
password verification fails for the found user. -/
theorem C8_invalid_credentials_indistinguishable (jwtSecret : String) (rs : RedisState)
    (now : Nat) (ksuid : String) (input : SigninInput) (user : UserRec)
    (hmm : BcryptPasswordService.verify input.password user.password = false) :
    SigninUseCase.execute (fun _ => none) jwtSecret rs now ksuid input =
      .ok (ucFailure .invalidCredentials, rs) ∧
    SigninUseCase.execute (fun _ => some user) jwtSecret rs now ksuid input =
      .ok (ucFailure .invalidCredentials, rs) ∧
    SigninUseCase.execute (fun _ => some user) jwtSecret rs now ksuid input =
      SigninUseCase.execute (fun _ => none) jwtSecret rs now ksuid input := by
  have h1 : SigninUseCase.execute (fun _ => none) jwtSecret rs now ksuid input =
      .ok (ucFailure .invalidCredentials, rs) := by
    unfold SigninUseCase.execute
    rfl
  have h2 : SigninUseCase.execute (fun _ => some user) jwtSecret rs now ksuid input =
      .ok (ucFailure .invalidCredentials, rs) := by
    unfold SigninUseCase.execute
    simp [hmm, Pure.pure, Except.pure]
  exact ⟨h1, h2, h2.trans h1.symm⟩

theorem C8_witness :
    SigninUseCase.execute (fun _ => none) "s" redisInit 0 "K" { email := "a@b", password := "pw" } =
      .ok (ucFailure .invalidCredentials, redisInit) ∧
    SigninUseCase.execute (fun _ => some { id := some 7, password := "stored" })
        "s" redisInit 0 "K" { email := "a@b", password := "pw" } =
      .ok (ucFailure .invalidCredentials, redisInit) ∧
    SigninUseCase.execute (fun _ => some { id := some 7, password := "stored" })
        "s" redisInit 0 "K" { email := "a@b", password := "pw" } =
      SigninUseCase.execute (fun _ => none) "s" redisInit 0 "K" { email := "a@b", password := "pw" } :=
  C8_invalid_credentials_indistinguishable "s" redisInit 0 "K"
    { email := "a@b", password := "pw" } { id := some 7, password := "stored" } (by decide)


/-! Section: Claim C7 -/

theorem startsWithTag_append (tag rest : String) :
    startsWithTag tag (tag ++ rest) = true := by
  unfold startsWithTag
  rw [strData_append]
  exact tagMatches_append _ _

theorem dropStr4_append (tag rest : String) (h : tag.data.length = 4) :
    dropStr 4 (tag ++ rest) = rest := by
  unfold dropStr
  rw [strData_append, ← h, List.drop_left]

/-- C7: the Password Hashing Adapter's `hash` always emits a `$2y$`-tagged
string, and its `verify` accepts both a `$2b$`-tagged bcrypt hash of the
same plaintext and cost (as produced externally) and its own
`$2y$`-normalized output. -/
theorem C7_cross_format (p : String) :
    startsWithTag "$2y$" (BcryptPasswordService.hash p) = true ∧
    BcryptPasswordService.verify p (bcryptLibHash p BCRYPT_ROUNDS) = true ∧
    BcryptPasswordService.verify p (BcryptPasswordService.hash p) = true := by
  have hb2b : startsWithTag "$2b$" (bcryptLibHash p BCRYPT_ROUNDS) = true := by
    unfold bcryptLibHash
    have : "$2b$" ++ toString BCRYPT_ROUNDS ++ "$" ++ p =
        "$2b$" ++ (toString BCRYPT_ROUNDS ++ "$" ++ p) := by
      apply String.ext
      simp [strData_append, List.append_assoc]
    rw [this]
    exact startsWithTag_append _ _
  have hhash : BcryptPasswordService.hash p =
      "$2y$" ++ dropStr 4 (bcryptLibHash p BCRYPT_ROUNDS) := by
    unfold BcryptPasswordService.hash BcryptPasswordService.toLaravelTag
    rw [hb2b]
    simp
  have hdrop : dropStr 4 (bcryptLibHash p BCRYPT_ROUNDS) =
      toString BCRYPT_ROUNDS ++ "$" ++ p := by
    unfold bcryptLibHash
    have : "$2b$" ++ toString BCRYPT_ROUNDS ++ "$" ++ p =
        "$2b$" ++ (toString BCRYPT_ROUNDS ++ "$" ++ p) := by
      apply String.ext
      simp [strData_append, List.append_assoc]
    rw [this]
    exact dropStr4_append _ _ rfl
  have hcmp : ∀ s : String, s.data = ('1' :: '2' :: '$' :: p.data) →
      bcryptLibCompare p ("$2b$" ++ s) = true := by
    intro s hs
    unfold bcryptLibCompare
    rw [startsWithTag_append, dropStr4_append "$2b$" s rfl]
    simp [hs]
  have hbody : (toString BCRYPT_ROUNDS ++ "$" ++ p).data = '1' :: '2' :: '$' :: p.data := rfl
  refine ⟨?_, ?_, ?_⟩
  · rw [hhash]
    exact startsWithTag_append _ _
  · unfold BcryptPasswordService.verify BcryptPasswordService.toNodeTag
    have h2y : startsWithTag "$2y$" (bcryptLibHash p BCRYPT_ROUNDS) = false := by
      unfold bcryptLibHash startsWithTag
      simp [strData_append, tagMatches]
    rw [h2y]
    simp only [Bool.false_eq_true, if_false]
    have : bcryptLibHash p BCRYPT_ROUNDS = "$2b$" ++ (toString BCRYPT_ROUNDS ++ "$" ++ p) := by
      unfold bcryptLibHash
      apply String.ext
      simp [strData_append, List.append_assoc]
    rw [this]
    exact hcmp _ hbody
  · unfold BcryptPasswordService.verify BcryptPasswordService.toNodeTag
    rw [hhash, startsWithTag_append, if_pos rfl,
      dropStr4_append "$2y$" (dropStr 4 (bcryptLibHash p BCRYPT_ROUNDS)) rfl, hdrop]
    exact hcmp _ hbody


/-! Section: Claim C6 -/

/-- C6: for every `generateTokenPair(userId, sessionId?)` call — whether the
session id is supplied or omitted — the issued access and refresh tokens
carry equal session (`jti`) claims, namely the resolved session id (the
supplied `sessionId` when one is given, the freshly generated KSUID
otherwise; the last conjunct of the first group states the supplied case
explicitly); and the refresh use case feeds the verified payload's session
back into `generateTokenPair`, so a successful rotation returns tokens
whose session equals the presented token's session. -/
theorem C6_session_binding (jwtSecret : String) (rs rs1 : RedisState) (now now1 : Nat)
    (ksuid ksuid1 : String) (userId : Nat) (session : Option String) (pair : TokenPair)
    (tok : SignedToken) (a r : String)
    (hgen : genPair? jwtSecret rs now ksuid userId session = some pair)
    (hrot : refreshResultJtis jwtSecret rs1 now1 ksuid1 tok = some (a, r)) :
    (pair.accessToken.claims.jti = pair.refreshToken.claims.jti ∧
     pair.accessToken.claims.jti = session.getD ksuid ∧
     pair.refreshToken.claims.jti = session.getD ksuid ∧
     ∀ sid, session = some sid →
       pair.accessToken.claims.jti = sid ∧ pair.refreshToken.claims.jti = sid) ∧
    (a = tok.claims.jti ∧ r = tok.claims.jti) := by
  constructor
  · unfold genPair? at hgen
    cases hg : JwtTokenService.generateTokenPair jwtSecret rs now ksuid userId session with
    | error e => rw [hg] at hgen; cases hgen
    | ok pr =>
      rw [hg] at hgen
      obtain ⟨pair', rs'⟩ := pr
      have hpp : pair' = pair := Option.some.inj hgen
      subst hpp
      obtain ⟨hp, -⟩ := generateTokenPair_ok_inv _ _ _ _ _ _ _ _ hg
      subst hp
      refine ⟨by simp [jwtSign], by simp [jwtSign], by simp [jwtSign], ?_⟩
      intro sid hsid
      subst hsid
      simp [jwtSign]
  · unfold refreshResultJtis RefreshTokenUseCase.execute at hrot
    cases hvr : JwtTokenService.verifyRefreshToken jwtSecret rs1 now1 tok with
    | error e =>
      rw [hvr] at hrot
      cases e <;> simp [Bind.bind, Except.bind, ucFailure] at hrot
    | ok pl =>
      obtain ⟨payload, rsv⟩ := pl
      have hpay := verifyRefreshToken_ok_payload _ _ _ _ _ _ hvr
      rw [hvr] at hrot
      simp only [Bind.bind, Except.bind] at hrot
      cases hg : JwtTokenService.generateTokenPair jwtSecret rsv now1 ksuid1
          payload.userId (some payload.session) with
      | error e =>
        rw [hg] at hrot
        cases e <;> simp [ucFailure] at hrot
      | ok pr2 =>
        rw [hg] at hrot
        obtain ⟨pair2, rs2⟩ := pr2
        obtain ⟨hp2, -⟩ := generateTokenPair_ok_inv _ _ _ _ _ _ _ _ hg
        subst hp2
        subst hpay
        simp [Pure.pure, Except.pure, ucSuccess, jwtSign] at hrot
        exact ⟨hrot.1.symm, hrot.2.symm⟩


/-- Positive case of `verifyAccessToken`: correct signature, unexpired,
non-falsy claims — returns the token's own claims. -/
theorem verifyAccessToken_ok (jwtSecret : String) (now : Nat) (token : SignedToken)
    (hsig : token.signedWith = jwtSecret) (hexp : now < token.claims.exp)
    (hsub : token.claims.sub ≠ 0) (hjti : token.claims.jti ≠ "") :
    JwtTokenService.verifyAccessToken jwtSecret now token =
      .ok { userId := token.claims.sub, session := token.claims.jti } := by
  unfold JwtTokenService.verifyAccessToken JwtTokenService.verifyAccessTokenBody
    JwtTokenService.catchInvalid jwtVerify
  simp [hsig, Nat.not_le.mpr hexp, hsub, hjti, Bind.bind, Except.bind, Pure.pure, Except.pure]

/-- A token whose `sub` claim is `0` or whose `jti` claim is `""` is always
rejected by `verifyAccessToken` with `InvalidTokenError`. -/
theorem verifyAccessToken_falsy (jwtSecret : String) (now : Nat) (token : SignedToken)
    (h : token.claims.sub = 0 ∨ token.claims.jti = "") :
    failsInvalidToken (JwtTokenService.verifyAccessToken jwtSecret now token) = true := by
  unfold JwtTokenService.verifyAccessToken JwtTokenService.verifyAccessTokenBody
    JwtTokenService.catchInvalid jwtVerify
  simp only [Bind.bind, Except.bind, Pure.pure, Except.pure]
  rcases h with h | h <;> split_ifs <;> simp_all [failsInvalidToken, h]

/-- A token whose `sub` claim is `0` or whose `jti` claim is `""` is always
rejected by `verifyRefreshToken` with `InvalidTokenError`, whatever the
store state (the falsy-claim check precedes all store access). -/
theorem verifyRefreshToken_falsy (jwtSecret : String) (rs : RedisState) (now : Nat)
    (token : SignedToken)
    (h : token.claims.sub = 0 ∨ token.claims.jti = "") :
    failsInvalidToken (JwtTokenService.verifyRefreshToken jwtSecret rs now token) = true := by
  unfold JwtTokenService.verifyRefreshToken JwtTokenService.verifyRefreshTokenBody
    JwtTokenService.catchInvalid jwtVerify JwtTokenService.ensureConnected redisConnect redisGet
  simp only [Bind.bind, Except.bind, Pure.pure, Except.pure]
  rcases h with h | h <;> split_ifs <;> simp_all [failsInvalidToken, h]

/-! Section: Claim C9 -/

/-- C9 as stated is false at `userId = 0`: the pair is issued, but passing
its refresh token to `verifyAccessToken` fails with `InvalidToken` instead
of succeeding. -/
theorem C9_counterexample :
    (accessVerifyOfRefresh? "s" redisInit 5 "K" 0 none 6).map failsInvalidToken = some true :=
  by decide

/-- C9 amended: for every pair issued for a nonzero `userId` and a nonempty
session id, `verifyAccessToken` accepts the (unexpired) refresh token and
returns the same `userId`/session payload as it does for the access token
— it does not distinguish token kinds. -/
theorem C9_access_verifies_refresh (jwtSecret : String) (rs : RedisState) (now : Nat)
    (ksuid : String) (userId : Nat) (session : Option String) (pair : TokenPair)
    (t1 t2 : Nat)
    (huid : userId ≠ 0) (hsid : session.getD ksuid ≠ "")
    (hgen : genPair? jwtSecret rs now ksuid userId session = some pair)
    (h1 : t1 < now + REFRESH_TOKEN_EXPIRES_IN_SECONDS)
    (h2 : t2 < now + ACCESS_TOKEN_EXPIRES_IN_SECONDS) :
    JwtTokenService.verifyAccessToken jwtSecret t1 pair.refreshToken =
      .ok { userId := userId, session := session.getD ksuid } ∧
    JwtTokenService.verifyAccessToken jwtSecret t2 pair.accessToken =
      .ok { userId := userId, session := session.getD ksuid } := by
  unfold genPair? at hgen
  cases hg : JwtTokenService.generateTokenPair jwtSecret rs now ksuid userId session with
  | error e => rw [hg] at hgen; cases hgen
  | ok pr =>
    rw [hg] at hgen
    obtain ⟨pair', rs'⟩ := pr
    have hpp : pair' = pair := Option.some.inj hgen
    subst hpp
    obtain ⟨hp, -⟩ := generateTokenPair_ok_inv _ _ _ _ _ _ _ _ hg
    subst hp
    constructor
    · exact verifyAccessToken_ok _ _ _ (by simp [jwtSign]) (by simpa [jwtSign] using h1)
        (by simpa [jwtSign] using huid) (by simpa [jwtSign] using hsid)
    · exact verifyAccessToken_ok _ _ _ (by simp [jwtSign]) (by simpa [jwtSign] using h2)
        (by simpa [jwtSign] using huid) (by simpa [jwtSign] using hsid)

theorem C9_witness :
    JwtTokenService.verifyAccessToken "s" 6
        ({ accessToken := jwtSign 7 "K" "s" ACCESS_TOKEN_EXPIRES_IN_SECONDS 5,
           refreshToken := jwtSign 7 "K" "s" REFRESH_TOKEN_EXPIRES_IN_SECONDS 5 } :
          TokenPair).refreshToken =
      .ok { userId := 7, session := "K" } ∧
    JwtTokenService.verifyAccessToken "s" 6
        ({ accessToken := jwtSign 7 "K" "s" ACCESS_TOKEN_EXPIRES_IN_SECONDS 5,
           refreshToken := jwtSign 7 "K" "s" REFRESH_TOKEN_EXPIRES_IN_SECONDS 5 } :
          TokenPair).accessToken =
      .ok { userId := 7, session := "K" } :=
  C9_access_verifies_refresh "s" redisInit 5 "K" 7 none _ 6 6 (by decide) (by decide)
    (by decide) (by decide) (by decide)

/-! Section: Claim C10 -/

/-- C10: `generateTokenPair(0)` succeeds and stores a session record, yet
both verifiers reject every token whose `sub` claim is `0` — and likewise
every token whose session (`jti`) claim is empty — with `InvalidToken`. -/
theorem C10_falsy_claims_rejected (jwtSecret : String) (rs rsV : RedisState)
    (now nowV : Nat) (ksuid : String) (tok tokE : SignedToken)
    (hconn : rs.isOpen = true ∨ rs.connectFails = false)
    (hsub0 : tok.claims.sub = 0) (hjtiE : tokE.claims.jti = "") :
    (genPair? jwtSecret rs now ksuid 0 none).isSome = true ∧
    (storedAfterGen? jwtSecret rs now ksuid 0 none).isSome = true ∧
    failsInvalidToken (JwtTokenService.verifyAccessToken jwtSecret nowV tok) = true ∧
    failsInvalidToken (JwtTokenService.verifyRefreshToken jwtSecret rsV nowV tok) = true ∧
    failsInvalidToken (JwtTokenService.verifyAccessToken jwtSecret nowV tokE) = true ∧
    failsInvalidToken (JwtTokenService.verifyRefreshToken jwtSecret rsV nowV tokE) = true := by
  refine ⟨?_, ?_, ?_, ?_, ?_, ?_⟩
  · unfold genPair?
    rw [generateTokenPair_eq jwtSecret rs now ksuid 0 none hconn]
    rfl
  · unfold storedAfterGen?
    rw [generateTokenPair_eq jwtSecret rs now ksuid 0 none hconn]
    simp
  · exact verifyAccessToken_falsy _ _ _ (Or.inl hsub0)
  · exact verifyRefreshToken_falsy _ _ _ _ (Or.inl hsub0)
  · exact verifyAccessToken_falsy _ _ _ (Or.inr hjtiE)
  · exact verifyRefreshToken_falsy _ _ _ _ (Or.inr hjtiE)

theorem C10_witness :
    (genPair? "s" redisInit 0 "K" 0 none).isSome = true ∧
    (storedAfterGen? "s" redisInit 0 "K" 0 none).isSome = true ∧
    failsInvalidToken (JwtTokenService.verifyAccessToken "s" 1
      (jwtSign 0 "K" "s" ACCESS_TOKEN_EXPIRES_IN_SECONDS 0)) = true ∧
    failsInvalidToken (JwtTokenService.verifyRefreshToken "s" redisInit 1
      (jwtSign 0 "K" "s" ACCESS_TOKEN_EXPIRES_IN_SECONDS 0)) = true ∧
    failsInvalidToken (JwtTokenService.verifyAccessToken "s" 1
      (jwtSign 7 "" "s" ACCESS_TOKEN_EXPIRES_IN_SECONDS 0)) = true ∧
    failsInvalidToken (JwtTokenService.verifyRefreshToken "s" redisInit 1
      (jwtSign 7 "" "s" ACCESS_TOKEN_EXPIRES_IN_SECONDS 0)) = true :=
  C10_falsy_claims_rejected "s" redisInit redisInit 0 1 "K"
    (jwtSign 0 "K" "s" ACCESS_TOKEN_EXPIRES_IN_SECONDS 0)
    (jwtSign 7 "" "s" ACCESS_TOKEN_EXPIRES_IN_SECONDS 0)
    (by decide) (by decide) (by decide)


theorem C6_witness :
    (({ accessToken := jwtSign 7 "SID" "s" ACCESS_TOKEN_EXPIRES_IN_SECONDS 0,
        refreshToken := jwtSign 7 "SID" "s" REFRESH_TOKEN_EXPIRES_IN_SECONDS 0 } :
       TokenPair).accessToken.claims.jti =
      ({ accessToken := jwtSign 7 "SID" "s" ACCESS_TOKEN_EXPIRES_IN_SECONDS 0,
         refreshToken := jwtSign 7 "SID" "s" REFRESH_TOKEN_EXPIRES_IN_SECONDS 0 } :
        TokenPair).refreshToken.claims.jti ∧
     ({ accessToken := jwtSign 7 "SID" "s" ACCESS_TOKEN_EXPIRES_IN_SECONDS 0,
        refreshToken := jwtSign 7 "SID" "s" REFRESH_TOKEN_EXPIRES_IN_SECONDS 0 } :
       TokenPair).accessToken.claims.jti = "SID" ∧
     ({ accessToken := jwtSign 7 "SID" "s" ACCESS_TOKEN_EXPIRES_IN_SECONDS 0,
        refreshToken := jwtSign 7 "SID" "s" REFRESH_TOKEN_EXPIRES_IN_SECONDS 0 } :
       TokenPair).refreshToken.claims.jti = "SID") ∧
    (({ accessToken := jwtSign 7 "KF" "s" ACCESS_TOKEN_EXPIRES_IN_SECONDS 0,
        refreshToken := jwtSign 7 "KF" "s" REFRESH_TOKEN_EXPIRES_IN_SECONDS 0 } :
       TokenPair).accessToken.claims.jti =
      ({ accessToken := jwtSign 7 "KF" "s" ACCESS_TOKEN_EXPIRES_IN_SECONDS 0,
         refreshToken := jwtSign 7 "KF" "s" REFRESH_TOKEN_EXPIRES_IN_SECONDS 0 } :
        TokenPair).refreshToken.claims.jti ∧
     ({ accessToken := jwtSign 7 "KF" "s" ACCESS_TOKEN_EXPIRES_IN_SECONDS 0,
        refreshToken := jwtSign 7 "KF" "s" REFRESH_TOKEN_EXPIRES_IN_SECONDS 0 } :
       TokenPair).accessToken.claims.jti = "KF") ∧
    ("K" = sampleRefreshTok.claims.jti ∧ "K" = sampleRefreshTok.claims.jti) := by
  have hS := C6_session_binding "s" redisInit sampleStoredRedis 0 3 "K" "K2" 7 (some "SID")
    { accessToken := jwtSign 7 "SID" "s" ACCESS_TOKEN_EXPIRES_IN_SECONDS 0,
      refreshToken := jwtSign 7 "SID" "s" REFRESH_TOKEN_EXPIRES_IN_SECONDS 0 }
    sampleRefreshTok "K" "K" (by decide) (by decide)
  have hN := C6_session_binding "s" redisInit sampleStoredRedis 0 3 "KF" "K2" 7 none
    { accessToken := jwtSign 7 "KF" "s" ACCESS_TOKEN_EXPIRES_IN_SECONDS 0,
      refreshToken := jwtSign 7 "KF" "s" REFRESH_TOKEN_EXPIRES_IN_SECONDS 0 }
    sampleRefreshTok "K" "K" (by decide) (by decide)
  exact ⟨⟨hS.1.1, hS.1.2.1, hS.1.2.2.1⟩, ⟨hN.1.1, hN.1.2.1⟩, hS.2⟩

end BodoTs
